import Mathlib

/-!
Shallow embedding of the pypi-cli validation and upload core
(src/lib/validators, src/lib/upload.ts, src/lib/api-client.ts, and the
publish command orchestration), together with theorems checking the
specification's claims about it.

JavaScript strings are modelled as Lean `String`/`List Char`; JavaScript
string methods (`split`, `replace` (first occurrence), `lastIndexOf`,
`includes`, `trim`, `endsWith`, `startsWith`, `toLowerCase`) are given
executable models below.  File-system access (`Bun.file(p).exists()`,
`.size`) is modelled by an explicit lookup function `String → FileLookup`,
where the `raises` case models an internal exception thrown by the file
access (caught by the surrounding try/catch in the source).  HTTP servers
are modelled as response oracles.
-/

namespace PypiCli

/-! ## JavaScript string primitives -/

/-- JS `String.prototype.split(sep)` for a single-character separator. -/
def splitOnChar (sep : Char) : List Char → List (List Char)
  | [] => [[]]
  | c :: rest =>
    if c = sep then [] :: splitOnChar sep rest
    else
      match splitOnChar sep rest with
      | [] => [[c]]
      | g :: gs => (c :: g) :: gs

/-- JS `arr.pop()` on the (always nonempty) result of `split`, with the
source's `|| ''` fallback. -/
def lastSegD (l : List (List Char)) : List Char := l.getLastD []

/-- JS `String.prototype.lastIndexOf(c)`; `none` models the `-1` result. -/
def lastIndexOfChar (c : Char) : List Char → Option Nat
  | [] => none
  | a :: rest =>
    match lastIndexOfChar c rest with
    | some i => some (i + 1)
    | none => if a = c then some 0 else none

/-- JS `String.prototype.replace(pat, repl)` with a string pattern:
replaces the first occurrence only; returns the input unchanged when the
pattern does not occur. -/
def replaceFirst (pat repl : List Char) : List Char → List Char
  | [] => if pat.isEmpty then repl else []
  | c :: rest =>
    if pat.isPrefixOf (c :: rest) then repl ++ (c :: rest).drop pat.length
    else c :: replaceFirst pat repl rest

/-- JS `String.prototype.includes(pat)`. -/
def containsSubstring (pat : List Char) : List Char → Bool
  | [] => pat.isPrefixOf []
  | c :: rest => pat.isPrefixOf (c :: rest) || containsSubstring pat rest

/-- The whitespace characters stripped by JS `String.prototype.trim`
(ASCII portion). -/
def jsWhitespaceChar (c : Char) : Bool :=
  c = ' ' || c = '\t' || c = '\n' || c = '\r' || c = Char.ofNat 11 || c = Char.ofNat 12

/-- JS `String.prototype.trim()`. -/
def jsTrim (s : String) : String :=
  ⟨((s.data.dropWhile jsWhitespaceChar).reverse.dropWhile jsWhitespaceChar).reverse⟩

/-- JS `String.prototype.endsWith(suf)`. -/
def endsWithStr (suf s : String) : Bool := suf.data.isSuffixOf s.data

/-- JS `btoa` (standard base64 of the code points, which are ASCII for all
inputs in scope), applied to groups of three bytes. -/
def base64Alphabet : List Char :=
  "ABCDEFGHIJKLMNOPQRSTUVWXYZabcdefghijklmnopqrstuvwxyz0123456789+/".data

def base64Digit (n : Nat) : Char := base64Alphabet.getD n '?'

def btoaBytes : List Nat → List Char
  | [] => []
  | [a] => [base64Digit (a / 4), base64Digit (a % 4 * 16), '=', '=']
  | [a, b] => [base64Digit (a / 4), base64Digit (a % 4 * 16 + b / 16),
      base64Digit (b % 16 * 4), '=']
  | a :: b :: c :: rest =>
    base64Digit (a / 4) :: base64Digit (a % 4 * 16 + b / 16) ::
      base64Digit (b % 16 * 4 + c / 64) :: base64Digit (c % 64) :: btoaBytes rest

def btoa (s : String) : String := ⟨btoaBytes (s.data.map Char.toNat)⟩

/-! ## The fixed regular expressions of src validators (part_002)

The four regex literals are embedded as `RegularExpression Char` ASTs;
`rmatch` (Brzozowski derivatives) decides anchored matching, which agrees
with JS `RegExp.prototype.test` for a `^...$` pattern. -/

abbrev RE := RegularExpression Char

def rchar (c : Char) : RE := RegularExpression.char c

/-- A letter under the `i` flag: either case. -/
def ichar (c : Char) : RE := rchar c + rchar c.toUpper

/-- A literal string under the `i` flag. -/
def istr (s : String) : RE := s.data.foldr (fun c r => ichar c * r) 1

/-- A literal (case-sensitive) string. -/
def sstr (s : String) : RE := s.data.foldr (fun c r => rchar c * r) 1

/-- A character class given by an explicit list. -/
def oneOf (cs : List Char) : RE := cs.foldr (fun c r => rchar c + r) 0

/-- `r?` -/
def opt (r : RE) : RE := r + 1

/-- `r{0,n}` -/
def repAtMost : Nat → RE → RE
  | 0, _ => 1
  | n + 1, r => opt r * repAtMost n r

/-- `r+` -/
def rep1 (r : RE) : RE := r * RegularExpression.star r

def digitRE : RE := oneOf "0123456789".data

def nzDigitRE : RE := oneOf "123456789".data

def upperAlphaChars : List Char := "ABCDEFGHIJKLMNOPQRSTUVWXYZ".data

def lowerAlphaChars : List Char := "abcdefghijklmnopqrstuvwxyz".data

def alnumRE : RE := oneOf (upperAlphaChars ++ lowerAlphaChars ++ "0123456789".data)

/-- `[a-z0-9]` under the `i` flag. -/
def lowerAlnumIRE : RE := oneOf (lowerAlphaChars ++ upperAlphaChars ++ "0123456789".data)

/-- `(0|[1-9][0-9]*)` -/
def numToken : RE := rchar '0' + nzDigitRE * RegularExpression.star digitRE

/-- `VERSION_REGEX` of part_002 line 18:
`/^([1-9][0-9]*!)?(0|[1-9][0-9]*)(\.(0|[1-9][0-9]*)){0,3}((a|b|rc)(0|[1-9][0-9]*))?(\.post(0|[1-9][0-9]*))?(\.dev(0|[1-9][0-9]*))?(\+[a-z0-9]+(\.[a-z0-9]+)*)?$/i` -/
def VERSION_REGEX : RE :=
  opt (nzDigitRE * RegularExpression.star digitRE * rchar '!') *
  (numToken * repAtMost 3 (rchar '.' * numToken)) *
  opt ((ichar 'a' + ichar 'b' + istr "rc") * numToken) *
  opt (rchar '.' * istr "post" * numToken) *
  opt (rchar '.' * istr "dev" * numToken) *
  opt (rchar '+' * rep1 lowerAlnumIRE *
    RegularExpression.star (rchar '.' * rep1 lowerAlnumIRE))

/-- `PACKAGE_NAME_REGEX` of part_002 line 11:
`/^([A-Za-z0-9]|[A-Za-z0-9][A-Za-z0-9._-]*[A-Za-z0-9])$/` -/
def PACKAGE_NAME_REGEX : RE :=
  alnumRE + alnumRE * RegularExpression.star (alnumRE + oneOf "._-".data) * alnumRE

/-- The local-part character class of `EMAIL_REGEX`
(`[a-zA-Z0-9.!#$%&'*+/=?^_`…`{|}~-]`; quote, backtick and braces written by
code point). -/
def emailLocalChars : List Char :=
  upperAlphaChars ++ lowerAlphaChars ++ "0123456789.!#$%&*+/=?^_|~-".data ++
    [Char.ofNat 39, Char.ofNat 96, Char.ofNat 123, Char.ofNat 125]

/-- A domain label `[a-zA-Z0-9](?:[a-zA-Z0-9-]{0,61}[a-zA-Z0-9])?`. -/
def emailDomainLabelRE : RE :=
  alnumRE * opt (repAtMost 61 (alnumRE + rchar '-') * alnumRE)

/-- `EMAIL_REGEX` of part_002 line 23. -/
def EMAIL_REGEX : RE :=
  rep1 (oneOf emailLocalChars) * rchar '@' * emailDomainLabelRE *
    RegularExpression.star (rchar '.' * emailDomainLabelRE)

def urlHostChars : List Char :=
  '-' :: (upperAlphaChars ++ lowerAlphaChars ++ "0123456789@:%._+~#=".data)

def urlTldChars : List Char :=
  '-' :: (upperAlphaChars ++ lowerAlphaChars ++ "0123456789()".data)

def urlPathChars : List Char :=
  '-' :: (upperAlphaChars ++ lowerAlphaChars ++ "0123456789()@:%_+.~#?&/=".data)

/-- `URL_REGEX` of part_002 line 29:
`/^https?:\/\/(www\.)?[-a-zA-Z0-9@:%._+~#=]{1,256}(\.[-a-zA-Z0-9()]{1,6})?(:\d{1,5})?(\/[-a-zA-Z0-9()@:%_+.~#?&/=]*)?$/` -/
def URL_REGEX : RE :=
  sstr "http" * opt (rchar 's') * sstr "://" * opt (sstr "www.") *
  (oneOf urlHostChars * repAtMost 255 (oneOf urlHostChars)) *
  opt (rchar '.' * (oneOf urlTldChars * repAtMost 5 (oneOf urlTldChars))) *
  opt (rchar ':' * (digitRE * repAtMost 4 digitRE)) *
  opt (rchar '/' * RegularExpression.star (oneOf urlPathChars))

/-! ## Validators (part_002) -/

/-- `validatePackageName` (part_002 lines 46-60). -/
def validatePackageName (name : String) : Bool :=
  if name = "" then false
  else
    let trimmed := jsTrim name
    if trimmed.length = 0 ∨ trimmed.length > 214 then false
    else PACKAGE_NAME_REGEX.rmatch trimmed.data

/-- `validateVersion` (part_002 lines 79-93). -/
def validateVersion (version : String) : Bool :=
  if version = "" then false
  else
    let trimmed := jsTrim version
    if trimmed.length = 0 ∨ trimmed.length > 100 then false
    else VERSION_REGEX.rmatch trimmed.data

/-- `validateEmail` (part_002 lines 108-145). -/
def validateEmail (email : String) : Bool :=
  if email = "" then false
  else
    let trimmed := jsTrim email
    if trimmed.length = 0 ∨ trimmed.length > 254 then false
    else if !containsSubstring ['@'] trimmed.data then false
    else
      let parts := splitOnChar '@' trimmed.data
      if parts.length ≠ 2 then false
      else
        let localPart := parts.headD []
        let domain := (parts.drop 1).headD []
        if localPart.length = 0 ∨ localPart.length > 64 then false
        else if domain.length = 0 ∨ domain.length > 253 then false
        else EMAIL_REGEX.rmatch trimmed.data

/-- `validateUrl` (part_002 lines 209-223). -/
def validateUrl (url : String) : Bool :=
  if url = "" then false
  else
    let trimmed := jsTrim url
    if trimmed.length = 0 ∨ trimmed.length > 2048 then false
    else URL_REGEX.rmatch trimmed.data

/-- `validateDistributionPath` (part_002 lines 276-283). -/
def validateDistributionPath (filePath : String) : Bool :=
  if filePath = "" then false
  else [".tar.gz", ".whl", ".egg", ".zip"].any (fun ext => endsWithStr ext filePath)

/-- `validateToken` (part_002 lines 297-306). -/
def validateToken (token : String) : Bool :=
  if token = "" then false
  else
    let trimmed := jsTrim token
    "pypi-".data.isPrefixOf trimmed.data && decide (trimmed.length > 20)

/-! ## Runtime JS values, for the totality claim

The validators are typed `string → boolean` but guard against non-string
runtime inputs with `if (!x || typeof x !== 'string') return false`. -/

inductive JSValue where
  | str (s : String)
  | num (n : Int)
  | jsBool (b : Bool)
  | jsNull
  | jsUndefined
  | jsObject
deriving DecidableEq

def JSValue.isString : JSValue → Bool
  | .str _ => true
  | _ => false

def jsValidatePackageName : JSValue → Bool
  | .str s => validatePackageName s
  | _ => false

def jsValidateVersion : JSValue → Bool
  | .str s => validateVersion s
  | _ => false

def jsValidateEmail : JSValue → Bool
  | .str s => validateEmail s
  | _ => false

def jsValidateUrl : JSValue → Bool
  | .str s => validateUrl s
  | _ => false

def jsValidateDistributionPath : JSValue → Bool
  | .str s => validateDistributionPath s
  | _ => false

def jsValidateToken : JSValue → Bool
  | .str s => validateToken s
  | _ => false

/-! ## Filename metadata extraction (upload.ts) -/

structure PackageMetadata where
  name : Option String := none
  version : Option String := none
  summary : Option String := none
  author : Option String := none
  author_email : Option String := none
  license : Option String := none
  home_page : Option String := none
  requires_python : Option String := none
  description : Option String := none
  description_content_type : Option String := none
  classifiers : Option (List String) := none
  keywords : Option String := none
deriving DecidableEq

def underscoreToHyphen (c : Char) : Char := if c = '_' then '-' else c

/-- `extractMetadataFromWheel` (upload.ts lines 209-233). -/
def extractMetadataFromWheel (filePath : String) : PackageMetadata :=
  let filename := lastSegD (splitOnChar '/' filePath.data)
  let parts := splitOnChar '-' (replaceFirst ".whl".data [] filename)
  if parts.length < 5 then {}
  else
    let name := parts.headD []
    let version := (parts.drop 1).headD []
    { name := some ⟨name.map underscoreToHyphen⟩, version := some ⟨version⟩ }

/-- `extractMetadataFromSdist` (upload.ts lines 247-271). -/
def extractMetadataFromSdist (filePath : String) : PackageMetadata :=
  let filename := lastSegD (splitOnChar '/' filePath.data)
  let nameVersion := replaceFirst ".tar.gz".data [] filename
  match lastIndexOfChar '-' nameVersion with
  | none => {}
  | some lastDash =>
    let name := nameVersion.take lastDash
    let version := nameVersion.drop (lastDash + 1)
    { name := some ⟨name.map underscoreToHyphen⟩, version := some ⟨version⟩ }

/-! ## Distribution validation (upload.ts / api-client.ts) -/

/-- Result of `Bun.file(path).exists()` / `.size`: the path is missing, or
present with a size, or the file access throws (caught by the caller's
try/catch; `msg` is `error.message`). -/
inductive FileLookup where
  | missing
  | found (size : Nat)
  | raises (msg : String)
deriving DecidableEq

structure ValidationResult where
  valid : Bool
  errors : List String
  warnings : List String
deriving DecidableEq

/-- `formatBytes` (upload.ts lines 370-376).  The JS float division with
`toFixed(2)` is rendered here by exact integer arithmetic truncated to two
decimals; no claim depends on the rounding mode. -/
def formatBytes (bytes : Nat) : String :=
  if bytes = 0 then "0 B"
  else
    let i := Nat.log 1024 bytes
    let unit := ["B", "KB", "MB", "GB"].getD i "undefined"
    let scaled := bytes * 100 / 1024 ^ i
    let frac := scaled % 100
    toString (scaled / 100) ++ "." ++ (if frac < 10 then "0" else "") ++ toString frac
      ++ " " ++ unit

/-- JS truthiness of an optional string field: `undefined` and `''` are
falsy. -/
def jsOptStr : Option String → Option String
  | some "" => none
  | o => o

/-- The metadata-extraction dispatch shared by `uploadToRepository` and
`validateDistribution` (upload.ts lines 87-92 and 316-321). -/
def extractMetadataFor (filePath : String) : PackageMetadata :=
  if endsWithStr ".whl" filePath then extractMetadataFromWheel filePath
  else if endsWithStr ".tar.gz" filePath then extractMetadataFromSdist filePath
  else {}

def suspiciousPatterns : List String := [".env", "credentials", "secret", "password", ".key"]

/-- `validateDistribution` (upload.ts lines 287-365). -/
def validateDistribution (fs : String → FileLookup) (filePath : String) :
    ValidationResult :=
  match fs filePath with
  | .missing => { valid := false, errors := ["File not found: " ++ filePath], warnings := [] }
  | .raises msg => { valid := false, errors := [msg], warnings := [] }
  | .found size =>
    let extErr := if validateDistributionPath filePath then []
      else ["Invalid file extension. Expected .tar.gz, .whl, .egg, or .zip"]
    let sizeErr := if size > 100 * 1024 * 1024 then
      ["File size (" ++ formatBytes size ++ ") exceeds PyPI limit of 100MB"] else []
    let smallWarn := if size < 1024 then
      ["File size (" ++ formatBytes size ++ ") is very small"] else []
    let metadata := extractMetadataFor filePath
    let nameCheck : List String × List String :=
      match jsOptStr metadata.name with
      | some n => (if validatePackageName n then [] else ["Invalid package name: " ++ n], [])
      | none => ([], ["Could not extract package name from file"])
    let verCheck : List String × List String :=
      match jsOptStr metadata.version with
      | some v => (if validateVersion v then []
          else ["Invalid version (not PEP 440 compliant): " ++ v], [])
      | none => ([], ["Could not extract version from file"])
    let filename := lastSegD (splitOnChar '/' filePath.data)
    let spaceErr := if containsSubstring [' '] filename then ["Filename contains spaces"] else []
    let lowerFilename := filename.map Char.toLower
    let suspWarns := suspiciousPatterns.filterMap fun pat =>
      if containsSubstring pat.data lowerFilename then
        some ("Filename contains suspicious pattern: " ++ pat)
      else none
    let errors := extErr ++ sizeErr ++ nameCheck.1 ++ verCheck.1 ++ spaceErr
    let warnings := smallWarn ++ nameCheck.2 ++ verCheck.2 ++ suspWarns
    { valid := errors.isEmpty, errors := errors, warnings := warnings }

/-- `PyPIUploader.validateDistribution` (api-client.ts lines 524-564). -/
def uploaderValidateDistribution (fs : String → FileLookup) (filePath : String) :
    ValidationResult :=
  match fs filePath with
  | .missing => { valid := false, errors := ["File not found: " ++ filePath], warnings := [] }
  | .raises msg => { valid := false, errors := [msg], warnings := [] }
  | .found size =>
    let extErr := if [".tar.gz", ".whl", ".egg", ".zip"].any (fun ext => endsWithStr ext filePath)
      then []
      else ["Invalid file extension. Expected one of: .tar.gz, .whl, .egg, .zip"]
    let sizeErr := if size > 100 * 1024 * 1024 then
      ["File size (" ++ toString size ++ " bytes) exceeds PyPI limit of 100MB"] else []
    let smallWarn := if size < 1024 then
      ["File size (" ++ toString size ++ " bytes) is very small"] else []
    let errors := extErr ++ sizeErr
    { valid := errors.isEmpty, errors := errors, warnings := smallWarn }

/-! ## Upload (upload.ts `uploadToRepository`, api-client.ts `PyPIUploader.upload`) -/

structure UploadResult where
  success : Bool
  message : Option String := none
  url : Option String := none
  statusCode : Option Nat := none
deriving DecidableEq

structure RepositoryConfig where
  name : String
  url : String
deriving DecidableEq

/-- `REPOSITORIES` (upload.ts lines 39-48). -/
def REPOSITORIES : List (String × RepositoryConfig) :=
  [("pypi", ⟨"PyPI", "https://upload.pypi.org/legacy/"⟩),
   ("testpypi", ⟨"TestPyPI", "https://test.pypi.org/legacy/"⟩)]

/-- The HTTP request issued by an upload, as far as the claims are
concerned: target URL, method, the `Authorization` and `User-Agent`
headers, and the multipart form fields in append order (the file blob of
the `content` field is represented by its path). -/
structure UploadRequest where
  url : String
  method : String
  authorization : String
  userAgent : String
  formFields : List (String × String)
deriving DecidableEq

/-- The server's response to an upload request: HTTP status plus
`response.text()`. -/
structure ServerResp where
  status : Nat
  bodyText : String := ""
deriving DecidableEq

def optField (key : String) (o : Option String) : List (String × String) :=
  match jsOptStr o with
  | some v => [(key, v)]
  | none => []

/-- The multipart form built by `uploadToRepository` (upload.ts lines
94-118). -/
def uploadFormFields (filePath : String) (metadata : PackageMetadata) :
    List (String × String) :=
  [("content", filePath), (":action", "file_upload"), ("protocol_version", "1")]
    ++ optField "name" metadata.name
    ++ optField "version" metadata.version
    ++ optField "summary" metadata.summary
    ++ optField "author" metadata.author
    ++ optField "author_email" metadata.author_email
    ++ optField "license" metadata.license
    ++ optField "home_page" metadata.home_page
    ++ optField "requires_python" metadata.requires_python
    ++ optField "description" metadata.description
    ++ optField "description_content_type" metadata.description_content_type
    ++ optField "keywords" metadata.keywords
    ++ (match metadata.classifiers with
        | some cs => cs.map (fun c => ("classifiers", c))
        | none => [])

/-- The web root used for the success URL (upload.ts lines 170-172). -/
def webRootFor (repository : String) : String :=
  if repository = "testpypi" then "https://test.pypi.org" else "https://pypi.org"

/-- `uploadToRepository` (upload.ts lines 68-195).  Returns the
`UploadResult` together with the request issued (`none` when no HTTP
request was sent).  The 60 s timeout/abort path is not modelled: the
response oracle always answers. -/
def uploadToRepository (fs : String → FileLookup) (server : ServerResp)
    (filePath token : String) (repository : String) :
    UploadResult × Option UploadRequest :=
  let uploadUrl := ((REPOSITORIES.lookup repository).map (·.url)).getD repository
  match fs filePath with
  | .missing => ({ success := false, message := some ("File not found: " ++ filePath) }, none)
  | .raises msg => ({ success := false, message := some msg }, none)
  | .found _ =>
    let metadata := extractMetadataFor filePath
    let req : UploadRequest :=
      { url := uploadUrl, method := "POST",
        authorization := "Basic " ++ btoa ("__token__:" ++ token),
        userAgent := "pypi-cli/1.0.0",
        formFields := uploadFormFields filePath metadata }
    let resp := server
    if 200 ≤ resp.status ∧ resp.status < 300 then
      let fallbackName : String :=
        ⟨(splitOnChar '-' (lastSegD (splitOnChar '/' filePath.data))).headD []⟩
      let packageName :=
        match jsOptStr metadata.name with
        | some n => n
        | none => if fallbackName ≠ "" then fallbackName else "unknown"
      let version := (jsOptStr metadata.version).getD ""
      let repoUrl := webRootFor repository
      let projectUrl :=
        if version ≠ "" then repoUrl ++ "/project/" ++ packageName ++ "/" ++ version ++ "/"
        else repoUrl ++ "/project/" ++ packageName ++ "/"
      ({ success := true, message := some "Package uploaded successfully",
         url := some projectUrl }, some req)
    else if resp.status = 403 then
      ({ success := false, message := some "Authentication failed. Check your API token.",
         statusCode := some resp.status }, some req)
    else if resp.status = 409 then
      ({ success := false, message := some "File already exists on repository.",
         statusCode := some resp.status }, some req)
    else
      ({ success := false,
         message := some (if resp.bodyText = ""
           then "Upload failed with status " ++ toString resp.status else resp.bodyText),
         statusCode := some resp.status }, some req)

/-- `PyPIUploader.upload` (api-client.ts lines 448-508).  `uploadUrl` is
the constructor argument (default `https://upload.pypi.org/legacy/`). -/
def uploaderUpload (fs : String → FileLookup) (server : ServerResp)
    (uploadUrl filePath token : String) : UploadResult × Option UploadRequest :=
  match fs filePath with
  | .missing => ({ success := false, message := some ("File not found: " ++ filePath) }, none)
  | .raises msg => ({ success := false, message := some msg }, none)
  | .found _ =>
    let req : UploadRequest :=
      { url := uploadUrl, method := "POST",
        authorization := "Bearer " ++ token,
        userAgent := "pypi-cli/1.0.0",
        formFields := [("content", filePath), (":action", "file_upload"),
          ("protocol_version", "1")] }
    let resp := server
    if 200 ≤ resp.status ∧ resp.status < 300 then
      ({ success := true, message := some "Package uploaded successfully",
         url := some ("https://pypi.org/project/" ++
           (⟨(splitOnChar '-' filePath.data).headD []⟩ : String) ++ "/") }, some req)
    else
      ({ success := false,
         message := some (if resp.bodyText = ""
           then "Upload failed with status " ++ toString resp.status else resp.bodyText),
         statusCode := some resp.status }, some req)

/-! ## API client request loop (api-client.ts `PyPIClient.request`) -/

/-- A thrown `PyPIAPIError`: message plus optional HTTP status. -/
structure APIError where
  message : String
  statusCode : Option Nat := none
deriving DecidableEq

/-- One HTTP response from the JSON API, as consumed by `request`:
status, the `message` field of the parsed error body when present, the
`Retry-After` header, and the parsed success body (abstracted to a
string). -/
structure HttpResp where
  status : Nat
  jsonMessage : Option String := none
  retryAfter : Option String := none
  body : String := ""
deriving DecidableEq

instance (α β : Type) [DecidableEq α] [DecidableEq β] : DecidableEq (Except α β) :=
  fun a b =>
    match a, b with
    | .ok x, .ok y => if h : x = y then .isTrue (by rw [h]) else .isFalse (by simp [h])
    | .error x, .error y => if h : x = y then .isTrue (by rw [h]) else .isFalse (by simp [h])
    | .ok _, .error _ => .isFalse (by simp)
    | .error _, .ok _ => .isFalse (by simp)

/-- The trace of one `request` call: the outcome (parsed body or thrown
error), how many HTTP requests were issued, and the list of backoff sleeps
performed between consecutive attempts, in order. -/
structure ReqTrace where
  result : Except APIError String
  requests : Nat
  delays : List Nat
deriving DecidableEq

/-- `calculateBackoff` (api-client.ts lines 176-179). -/
def calculateBackoff (attempt : Nat) : Nat := min (1000 * 2 ^ attempt) 4000

/-- The retry loop of `PyPIClient.request` (api-client.ts lines 87-170).
`remaining` is the number of loop iterations left
(`maxRetries - attempt`), making the recursion structural.  The server is
a response oracle indexed by attempt number.  Timeout/abort and transport
errors are not modelled: the oracle always answers with an HTTP
response. -/
def requestGo (maxRetries : Nat) (oracle : Nat → HttpResp) :
    Nat → Nat → List Nat → ReqTrace
  | 0, attempt, delays =>
    { result := .error ⟨"Request failed after maximum retries", none⟩,
      requests := attempt, delays := delays }
  | remaining + 1, attempt, delays =>
    let resp := oracle attempt
    if 200 ≤ resp.status ∧ resp.status < 300 then
      { result := .ok resp.body, requests := attempt + 1, delays := delays }
    else
      let errorMessage := resp.jsonMessage.getD
        ("API request failed with status " ++ toString resp.status)
      if resp.status ≥ 500 ∧ attempt < maxRetries - 1 then
        requestGo maxRetries oracle remaining (attempt + 1)
          (delays ++ [calculateBackoff attempt])
      else if resp.status = 404 then
        { result := .error ⟨"Package not found", some resp.status⟩,
          requests := attempt + 1, delays := delays }
      else if resp.status = 429 then
        { result := .error ⟨"Rate limited" ++
            (match resp.retryAfter with
             | some ra => ". Retry after " ++ ra ++ "s"
             | none => ""), some resp.status⟩,
          requests := attempt + 1, delays := delays }
      else
        { result := .error ⟨errorMessage, some resp.status⟩,
          requests := attempt + 1, delays := delays }

/-- `PyPIClient.request` for a client configured with `maxRetries`. -/
def request (maxRetries : Nat) (oracle : Nat → HttpResp) : ReqTrace :=
  requestGo maxRetries oracle maxRetries 0 []

/-- The mock server of the retry claim: 500 on the first two requests,
200 with a body on the third. -/
def mockFlaky : Nat → HttpResp :=
  fun n => if n < 2 then { status := 500 } else { status := 200, body := "pkgjson" }

/-! ## `PyPIClient.searchPackages` (api-client.ts lines 235-262) -/

structure SearchEntry where
  name : String
  version : String
  summary : Option String := none
  author : Option String := none
  keywords : Option String := none
  home_page : Option String := none
deriving DecidableEq

structure RateLimitInfo where
  limit : Nat
  remaining : Nat
  reset : Nat
deriving DecidableEq

/-- The `info` part of a package JSON document, as read by
`searchPackages`. -/
structure PkgInfo where
  name : String
  version : String
  summary : Option String := none
  author : Option String := none
  keywords : Option String := none
  home_page : Option String := none
deriving DecidableEq

/-- Outcome of the inner `getPackage(query)` call: a package document plus
rate-limit info, or a thrown `PyPIAPIError`. -/
inductive LookupOutcome where
  | ok (info : PkgInfo) (rateLimit : Option RateLimitInfo)
  | err (e : APIError)
deriving DecidableEq

/-- `PyPIClient.searchPackages`: exact-name lookup; a 404 yields an empty
list; other errors propagate.  The `limit` parameter is the source's
unused `_limit`. -/
def searchPackages (lookup : LookupOutcome) (_query : String) (_limit : Nat) :
    Except APIError (List SearchEntry × Option RateLimitInfo) :=
  match lookup with
  | .ok info rateLimit =>
    .ok ([{ name := info.name, version := info.version, summary := info.summary,
            author := info.author, keywords := info.keywords,
            home_page := info.home_page }], rateLimit)
  | .err e =>
    if e.statusCode = some 404 then .ok ([], none)
    else .error e

/-! ## Publish orchestration (part_011 `publishAction`) -/

/-- The upload loop of `publishAction` (part_011 lines 213-235): files are
uploaded in order; a failure with status 409 does not stop the loop; a
failure with status 403 breaks out of it.  Returns the sequence of upload
attempts actually issued, with their results. -/
def uploadLoop (upload : String → UploadResult) :
    List String → List (String × UploadResult)
  | [] => []
  | p :: rest =>
    let r := upload p
    if r.success then (p, r) :: uploadLoop upload rest
    else if r.statusCode ≠ some 409 then
      if r.statusCode = some 403 then [(p, r)]
      else (p, r) :: uploadLoop upload rest
    else (p, r) :: uploadLoop upload rest

/-- The validate-then-upload phases of `publishAction` (part_011 lines
110-235): every file is validated first; if any file fails validation the
command exits before any upload; otherwise each file is uploaded via
`uploadToRepository` with the per-file server response given by the
`servers` oracle.  Console output, the confirmation prompt (answered yes)
and dry-run mode are omitted; the result is the sequence of upload
requests issued. -/
def publishUploadPhase (fs : String → FileLookup) (servers : String → ServerResp)
    (token repository : String) (files : List String) :
    List (String × UploadResult) :=
  if files.any (fun f => !(validateDistribution fs f).valid) then []
  else uploadLoop (fun f => (uploadToRepository fs (servers f) f token repository).1) files

/-! ## Concrete fixtures used by witnesses and counterexamples -/

/-- A file system on which every path exists with size 5000 bytes. -/
def demoFs : String → FileLookup := fun _ => .found 5000

/-- A file system on which no path exists. -/
def emptyFs : String → FileLookup := fun _ => .missing

def server200 : ServerResp := { status := 200 }

def server403 : ServerResp := { status := 403 }

def server409 : ServerResp := { status := 409 }

/-- A server that always answers 200 at once. -/
def mockOk : Nat → HttpResp := fun _ => { status := 200 }

/-- An upload oracle that always fails with HTTP 409. -/
def upload409 : String → UploadResult :=
  fun _ => { success := false, statusCode := some 409 }

/-- An upload oracle that always fails with HTTP 403. -/
def upload403 : String → UploadResult :=
  fun _ => { success := false, statusCode := some 403 }

/-! ## Helper lemmas -/

theorem jsOptStr_ne_empty {o : Option String} {v : String} (h : jsOptStr o = some v) :
    v ≠ "" := by
  match o with
  | none => simp [jsOptStr] at h
  | some s =>
    by_cases hs : s = "" <;> simp [jsOptStr, hs] at h
    subst h; exact hs

/-! ## Claim theorems -/

/-- C1: every `ValidationResult` produced by `validateDistribution` (in the
upload library) and by `PyPIUploader.validateDistribution` satisfies
`valid == (errors is empty)`, for every path and file-system behaviour,
including missing paths and file accesses that throw. -/
theorem c1_validation_result_invariant (fs : String → FileLookup) (p : String) :
    ((validateDistribution fs p).valid = (validateDistribution fs p).errors.isEmpty) ∧
    ((uploaderValidateDistribution fs p).valid
      = (uploaderValidateDistribution fs p).errors.isEmpty) := by
  constructor <;>
    (cases h : fs p <;> simp [validateDistribution, uploaderValidateDistribution, h])

/-- C8: on a path that does not exist, `validateDistribution` returns
exactly one error, `"File not found: " ++ path`, no warnings, and
`valid = false`. -/
theorem c8_missing_file_single_error (fs : String → FileLookup) (p : String)
    (h : fs p = .missing) :
    validateDistribution fs p =
      { valid := false, errors := ["File not found: " ++ p], warnings := [] } := by
  simp [validateDistribution, h]

/-- Witness for C8 at a concrete missing path. -/
theorem c8_missing_file_single_error_witness :
    emptyFs "./dist/missing.tar.gz" = .missing ∧
    validateDistribution emptyFs "./dist/missing.tar.gz" =
      { valid := false, errors := ["File not found: ./dist/missing.tar.gz"],
        warnings := [] } :=
  ⟨rfl, c8_missing_file_single_error emptyFs "./dist/missing.tar.gz" rfl⟩

/-- C9: every validator is total and returns `false` on every non-string
runtime value. -/
theorem c9_validators_total_on_non_strings (v : JSValue) (h : v.isString = false) :
    jsValidatePackageName v = false ∧ jsValidateVersion v = false ∧
    jsValidateEmail v = false ∧ jsValidateUrl v = false ∧
    jsValidateDistributionPath v = false ∧ jsValidateToken v = false := by
  cases v <;> simp_all [JSValue.isString, jsValidatePackageName, jsValidateVersion,
    jsValidateEmail, jsValidateUrl, jsValidateDistributionPath, jsValidateToken]

/-- Witness for C9 at `null`. -/
theorem c9_validators_total_on_non_strings_witness :
    JSValue.jsNull.isString = false ∧
    (jsValidatePackageName .jsNull = false ∧ jsValidateVersion .jsNull = false ∧
     jsValidateEmail .jsNull = false ∧ jsValidateUrl .jsNull = false ∧
     jsValidateDistributionPath .jsNull = false ∧ jsValidateToken .jsNull = false) :=
  ⟨rfl, c9_validators_total_on_non_strings .jsNull rfl⟩

/-- C10: `searchPackages` ignores its `limit` argument, returns at most one
entry, returns exactly the exact-match entry when the lookup succeeds, and
the empty list when the lookup raises a 404. -/
theorem c10_search_at_most_one (lookup : LookupOutcome) (q : String) (l₁ l₂ : Nat) :
    searchPackages lookup q l₁ = searchPackages lookup q l₂ ∧
    (∀ res, searchPackages lookup q l₁ = .ok res → res.1.length ≤ 1) ∧
    (∀ info rl, lookup = .ok info rl →
      searchPackages lookup q l₁ =
        .ok ([{ name := info.name, version := info.version, summary := info.summary,
                author := info.author, keywords := info.keywords,
                home_page := info.home_page }], rl)) ∧
    (∀ e, lookup = .err e → e.statusCode = some 404 →
      searchPackages lookup q l₁ = .ok ([], none)) := by
  refine ⟨rfl, ?_, ?_, ?_⟩
  · intro res h
    match hl : lookup with
    | .ok info rl =>
      simp [searchPackages] at h
      simp [← h]
    | .err e =>
      by_cases h404 : e.statusCode = some 404 <;> simp [searchPackages, h404] at h
      simp [← h]
  · intro info rl hl
    simp [searchPackages, hl]
  · intro e hl h404
    simp [searchPackages, hl, h404]

/-- Witness for C10. -/
theorem c10_search_at_most_one_witness :
    (LookupOutcome.ok { name := "requests", version := "2.31.0" } none
        = LookupOutcome.ok { name := "requests", version := "2.31.0" } none) ∧
    searchPackages (.ok { name := "requests", version := "2.31.0" } none) "requests" 20 =
      .ok ([{ name := "requests", version := "2.31.0" }], none) ∧
    (LookupOutcome.err ⟨"Package not found", some 404⟩
        = LookupOutcome.err ⟨"Package not found", some 404⟩) ∧
    searchPackages (.err ⟨"Package not found", some 404⟩) "nosuchpkg" 20 = .ok ([], none) :=
  ⟨rfl,
   (c10_search_at_most_one (.ok { name := "requests", version := "2.31.0" } none)
      "requests" 20 20).2.2.1 _ _ rfl,
   rfl,
   (c10_search_at_most_one (.err ⟨"Package not found", some 404⟩)
      "nosuchpkg" 20 20).2.2.2 _ rfl rfl⟩

/-- C6: in the publish workflow, any validation failure prevents every
upload; during the upload phase a 409 failure does not stop the remaining
uploads, while a 403 failure aborts them. -/
theorem c6_publish_orchestration :
    (∀ (fs : String → FileLookup) (servers : String → ServerResp)
        (token repository : String) (files : List String),
      (∃ f ∈ files, (validateDistribution fs f).valid = false) →
      publishUploadPhase fs servers token repository files = []) ∧
    (∀ (upload : String → UploadResult) (p : String) (rest : List String),
      (upload p).success = false → (upload p).statusCode = some 409 →
      uploadLoop upload (p :: rest) = (p, upload p) :: uploadLoop upload rest) ∧
    (∀ (upload : String → UploadResult) (p : String) (rest : List String),
      (upload p).success = false → (upload p).statusCode = some 403 →
      uploadLoop upload (p :: rest) = [(p, upload p)]) := by
  refine ⟨?_, ?_, ?_⟩
  · rintro fs servers token repository files ⟨f, hf, hv⟩
    rw [publishUploadPhase, if_pos]
    exact List.any_eq_true.mpr ⟨f, hf, by simp [hv]⟩
  · intro upload p rest h1 h2
    simp [uploadLoop, h1, h2]
  · intro upload p rest h1 h2
    simp [uploadLoop, h1, h2]

/-- Witness for C6: a failing validation empties the batch; a 409 result
continues; a 403 result aborts. -/
theorem c6_publish_orchestration_witness :
    publishUploadPhase emptyFs (fun _ => server200) "tok" "pypi" ["a.tar.gz"] = [] ∧
    uploadLoop upload409 ("a" :: ["b"]) = ("a", upload409 "a") :: uploadLoop upload409 ["b"] ∧
    uploadLoop upload403 ("a" :: ["b"]) = [("a", upload403 "a")] :=
  ⟨c6_publish_orchestration.1 emptyFs (fun _ => server200) "tok" "pypi" ["a.tar.gz"]
      ⟨"a.tar.gz", by simp, by rfl⟩,
   c6_publish_orchestration.2.1 upload409 "a" ["b"] rfl rfl,
   c6_publish_orchestration.2.2 upload403 "a" ["b"] rfl rfl⟩

/-- Behind C3: once the oracle answers non-5xx at attempt `k`, the request
loop never issues more than `k + 1` requests. -/
theorem requestGo_requests_le (maxRetries : Nat) (oracle : Nat → HttpResp) (k : Nat)
    (hst : (oracle k).status < 500) :
    ∀ remaining attempt delays, attempt ≤ k →
      (requestGo maxRetries oracle remaining attempt delays).requests ≤ k + 1 := by
  intro remaining
  induction remaining with
  | zero =>
    intro attempt delays hak
    simp only [requestGo]
    omega
  | succ n ih =>
    intro attempt delays hak
    simp only [requestGo]
    split
    · simp; omega
    · split
      · rename_i hretry
        apply ih
        rcases Nat.lt_or_ge attempt k with h | h
        · omega
        · exfalso
          have : attempt = k := by omega
          subst this
          omega
      · split
        · simp; omega
        · split <;> simp <;> omega

/-- C3: with `maxRetries = 3` and a server answering 500, 500, then 200
with a body, `request` returns the third response's body, issues exactly 3
requests, and sleeps `min(1000·2^attempt, 4000)` ms between consecutive
attempts — delays that increase and never exceed 4000 ms; and a non-5xx
answer at attempt `k` is never retried. -/
theorem c3_retry_behaviour :
    request 3 mockFlaky =
      { result := .ok "pkgjson", requests := 3, delays := [1000, 2000] } ∧
    [1000, 2000] = [calculateBackoff 0, calculateBackoff 1] ∧
    List.Chain' (· < ·) [1000, 2000] ∧
    (∀ d ∈ [1000, 2000], d ≤ 4000) ∧
    (∀ (oracle : Nat → HttpResp) (k : Nat), k < 3 → (oracle k).status < 500 →
      (request 3 oracle).requests ≤ k + 1) := by
  refine ⟨by decide, by decide, by norm_num [List.chain'_cons], by decide, ?_⟩
  intro oracle k _ hst
  exact requestGo_requests_le 3 oracle k hst 3 0 [] (Nat.zero_le k)

/-- Witness for C3's quantified parts. -/
theorem c3_retry_behaviour_witness :
    (1000 ∈ [1000, 2000] ∧ 1000 ≤ 4000) ∧
    ((0 : Nat) < 3 ∧ (mockOk 0).status < 500 ∧ (request 3 mockOk).requests ≤ 0 + 1) :=
  ⟨⟨by decide, c3_retry_behaviour.2.2.2.1 1000 (by decide)⟩,
   ⟨by decide, by decide, c3_retry_behaviour.2.2.2.2 mockOk 0 (by decide) (by decide)⟩⟩

/-- C5 (amended): whenever an upload request is issued for an existing
file, `uploadToRepository` sends
`Authorization: Basic base64("__token__:" ++ token)`, while
`PyPIUploader.upload` sends `Authorization: Bearer token`. -/
theorem c5_authorization_headers (fs : String → FileLookup) (server : ServerResp)
    (filePath token repository uploadUrl : String) (sz : Nat)
    (h : fs filePath = .found sz) :
    ((uploadToRepository fs server filePath token repository).2.map (·.authorization)) =
      some ("Basic " ++ btoa ("__token__:" ++ token)) ∧
    ((uploaderUpload fs server uploadUrl filePath token).2.map (·.authorization)) =
      some ("Bearer " ++ token) := by
  constructor
  · simp only [uploadToRepository, h]
    split
    · rfl
    · split
      · rfl
      · split <;> rfl
  · simp only [uploaderUpload, h]
    split <;> rfl

/-- Counterexample to C5 as stated: `PyPIUploader.upload` does not use
HTTP Basic authentication; it sends a `Bearer` header. -/
theorem c5_authorization_headers_counterexample :
    ((uploaderUpload demoFs server200 "https://upload.pypi.org/legacy/"
        "pkg-1.0.0.tar.gz" "tok").2.map (·.authorization)) = some "Bearer tok" ∧
    "Bearer tok" ≠ "Basic " ++ btoa ("__token__:" ++ "tok") := by
  constructor
  · rfl
  · decide

/-- Witness for C5's amended statement at concrete inputs. -/
theorem c5_authorization_headers_witness :
    demoFs "pkg-1.0.0.tar.gz" = .found 5000 ∧
    (((uploadToRepository demoFs server200 "pkg-1.0.0.tar.gz" "tok" "pypi").2.map
        (·.authorization)) = some ("Basic " ++ btoa ("__token__:" ++ "tok")) ∧
     ((uploaderUpload demoFs server200 "https://upload.pypi.org/legacy/"
        "pkg-1.0.0.tar.gz" "tok").2.map (·.authorization)) = some ("Bearer " ++ "tok")) :=
  ⟨rfl, c5_authorization_headers demoFs server200 "pkg-1.0.0.tar.gz" "tok" "pypi"
    "https://upload.pypi.org/legacy/" 5000 rfl⟩

/-- C4 (amended): for an existing file, `uploadToRepository` classifies the
server response as the claim states (2xx success with the project URL,
403 authentication-failure message, 409 already-exists message, otherwise
body text or a generic message); `PyPIUploader.upload`, however, returns
the generic body-or-status message for every non-2xx status including 403
and 409, and on 2xx builds its URL from the path segment before the first
dash, without any version. -/
theorem c4_response_classification (fs : String → FileLookup) (server : ServerResp)
    (filePath token repository uploadUrl : String) (sz : Nat)
    (hex : fs filePath = .found sz) :
    (((200 ≤ server.status ∧ server.status < 300) →
        (uploadToRepository fs server filePath token repository).1.success = true ∧
        (∀ n v, jsOptStr (extractMetadataFor filePath).name = some n →
          jsOptStr (extractMetadataFor filePath).version = some v →
          (uploadToRepository fs server filePath token repository).1.url =
            some (webRootFor repository ++ "/project/" ++ n ++ "/" ++ v ++ "/")) ∧
        (∀ n, jsOptStr (extractMetadataFor filePath).name = some n →
          jsOptStr (extractMetadataFor filePath).version = none →
          (uploadToRepository fs server filePath token repository).1.url =
            some (webRootFor repository ++ "/project/" ++ n ++ "/"))) ∧
     (server.status = 403 →
        (uploadToRepository fs server filePath token repository).1.success = false ∧
        (uploadToRepository fs server filePath token repository).1.statusCode = some 403 ∧
        ∃ m, (uploadToRepository fs server filePath token repository).1.message = some m ∧
          containsSubstring "Authentication failed".data m.data = true) ∧
     (server.status = 409 →
        (uploadToRepository fs server filePath token repository).1.success = false ∧
        (uploadToRepository fs server filePath token repository).1.statusCode = some 409 ∧
        ∃ m, (uploadToRepository fs server filePath token repository).1.message = some m ∧
          containsSubstring "already exists".data m.data = true) ∧
     (¬(200 ≤ server.status ∧ server.status < 300) →
        server.status ≠ 403 → server.status ≠ 409 →
        (uploadToRepository fs server filePath token repository).1.success = false ∧
        (uploadToRepository fs server filePath token repository).1.statusCode =
          some server.status ∧
        (uploadToRepository fs server filePath token repository).1.message =
          some (if server.bodyText = ""
            then "Upload failed with status " ++ toString server.status
            else server.bodyText))) ∧
    ((¬(200 ≤ server.status ∧ server.status < 300) →
        (uploaderUpload fs server uploadUrl filePath token).1.success = false ∧
        (uploaderUpload fs server uploadUrl filePath token).1.statusCode =
          some server.status ∧
        (uploaderUpload fs server uploadUrl filePath token).1.message =
          some (if server.bodyText = ""
            then "Upload failed with status " ++ toString server.status
            else server.bodyText)) ∧
     ((200 ≤ server.status ∧ server.status < 300) →
        (uploaderUpload fs server uploadUrl filePath token).1.success = true ∧
        (uploaderUpload fs server uploadUrl filePath token).1.url =
          some ("https://pypi.org/project/" ++
            (⟨(splitOnChar '-' filePath.data).headD []⟩ : String) ++ "/"))) := by
  refine ⟨⟨?_, ?_, ?_, ?_⟩, ?_, ?_⟩
  · intro h2xx
    refine ⟨by simp [uploadToRepository, hex, h2xx], ?_, ?_⟩
    · intro n v hn hv
      have hv' : v ≠ "" := jsOptStr_ne_empty hv
      simp [uploadToRepository, hex, h2xx, hn, hv, hv']
    · intro n hn hv
      simp [uploadToRepository, hex, h2xx, hn, hv]
  · intro h403
    have h2xx : ¬(200 ≤ server.status ∧ server.status < 300) := by omega
    refine ⟨by simp [uploadToRepository, hex, h2xx, h403], ?_, ?_⟩
    · simp [uploadToRepository, hex, h2xx, h403]
    · exact ⟨"Authentication failed. Check your API token.",
        by simp [uploadToRepository, hex, h2xx, h403], by decide⟩
  · intro h409
    have h2xx : ¬(200 ≤ server.status ∧ server.status < 300) := by omega
    have hne : server.status ≠ 403 := by omega
    refine ⟨by simp [uploadToRepository, hex, h2xx, h409, hne], ?_, ?_⟩
    · simp [uploadToRepository, hex, h2xx, h409, hne]
    · exact ⟨"File already exists on repository.",
        by simp [uploadToRepository, hex, h2xx, h409, hne], by decide⟩
  · intro h2xx h403 h409
    refine ⟨?_, ?_, ?_⟩ <;> simp [uploadToRepository, hex, h2xx, h403, h409]
  · intro h2xx
    refine ⟨?_, ?_, ?_⟩ <;> simp [uploaderUpload, hex, h2xx]
  · intro h2xx
    constructor <;> simp [uploaderUpload, hex, h2xx]

/-- Counterexample to C4 as stated: on HTTP 403 with an empty body,
`PyPIUploader.upload` answers the generic status message, not an
authentication-failure message, and on 2xx its URL never carries the
extracted version. -/
theorem c4_response_classification_counterexample :
    (uploaderUpload demoFs server403 "https://upload.pypi.org/legacy/"
        "pkg-1.0.0.tar.gz" "tok").1.message = some "Upload failed with status 403" ∧
    containsSubstring "Authentication failed".data
      "Upload failed with status 403".data = false ∧
    (uploaderUpload demoFs server200 "https://upload.pypi.org/legacy/"
        "pkg-1.0.0.tar.gz" "tok").1.url = some "https://pypi.org/project/pkg/" ∧
    some "https://pypi.org/project/pkg/" ≠ some "https://pypi.org/project/pkg/1.0.0/" := by
  refine ⟨by rfl, by decide, by rfl, by decide⟩

/-- Witness for C4's amended statement: a 409 response at a concrete
upload. -/
theorem c4_response_classification_witness :
    demoFs "pkg-1.0.0.tar.gz" = .found 5000 ∧
    server409.status = 409 ∧
    (uploadToRepository demoFs server409 "pkg-1.0.0.tar.gz" "tok" "pypi").1.success
      = false ∧
    (uploadToRepository demoFs server409 "pkg-1.0.0.tar.gz" "tok" "pypi").1.statusCode
      = some 409 :=
  ⟨rfl, rfl,
   ((c4_response_classification demoFs server409 "pkg-1.0.0.tar.gz" "tok" "pypi"
      "https://upload.pypi.org/legacy/" 5000 rfl).1.2.2.1 rfl).1,
   ((c4_response_classification demoFs server409 "pkg-1.0.0.tar.gz" "tok" "pypi"
      "https://upload.pypi.org/legacy/" 5000 rfl).1.2.2.1 rfl).2.1⟩

/-- C7 (amended): `validateVersion(v)` is true iff the *trimmed* input is
1–100 characters and matches the (case-insensitive) PEP-440-shaped
grammar embedded as `VERSION_REGEX`; in particular the 5-segment
`1.0.0.0.0` is rejected while the 4-segment `1.0.0.0` is accepted. -/
theorem c7_version_grammar :
    (∀ v : String, validateVersion v = true ↔
      (1 ≤ (jsTrim v).length ∧ (jsTrim v).length ≤ 100 ∧
        (jsTrim v).data ∈ VERSION_REGEX.matches')) ∧
    validateVersion "1.0.0.0.0" = false ∧ validateVersion "1.0.0.0" = true := by
  refine ⟨?_, by decide, by decide⟩
  intro v
  unfold validateVersion
  by_cases hv : v = ""
  · subst hv
    simp only [if_pos rfl]
    have : jsTrim "" = "" := rfl
    rw [this]
    simp
  · rw [if_neg hv]
    by_cases hlen : (jsTrim v).length = 0 ∨ (jsTrim v).length > 100
    · rw [if_pos hlen]
      constructor
      · intro h; exact absurd h (by simp)
      · rintro ⟨ha, hb, _⟩; exfalso; omega
    · rw [if_neg hlen]
      push_neg at hlen
      constructor
      · intro h
        exact ⟨by omega, by omega, (RegularExpression.rmatch_iff_matches' _ _).mp h⟩
      · rintro ⟨_, _, hm⟩
        exact (RegularExpression.rmatch_iff_matches' _ _).mpr hm

/-- Counterexample to C7 as stated: `" 1.0 "`-style inputs are trimmed
before the checks, so `validateVersion "1.0 "` is true although `"1.0 "`
itself does not match the grammar. -/
theorem c7_version_grammar_counterexample :
    validateVersion "1.0 " = true ∧
    VERSION_REGEX.rmatch ("1.0 " : String).data = false := by
  constructor <;> decide

/-! ## String lemmas behind the sdist round-trip claim -/

theorem splitOnChar_eq_single {c : Char} {l : List Char} (h : c ∉ l) :
    splitOnChar c l = [l] := by
  induction l with
  | nil => rfl
  | cons a rest ih =>
    simp only [List.mem_cons, not_or] at h
    rw [splitOnChar, if_neg (fun hac => h.1 hac.symm), ih h.2]

theorem lastIndexOfChar_eq_none {c : Char} {l : List Char} (h : c ∉ l) :
    lastIndexOfChar c l = none := by
  induction l with
  | nil => rfl
  | cons a rest ih =>
    simp only [List.mem_cons, not_or] at h
    rw [lastIndexOfChar, ih h.2, if_neg (fun hac => h.1 hac.symm)]

theorem lastIndexOfChar_append {c : Char} (xs ys : List Char) (h : c ∉ ys) :
    lastIndexOfChar c (xs ++ c :: ys) = some xs.length := by
  induction xs with
  | nil => simp [lastIndexOfChar, lastIndexOfChar_eq_none h]
  | cons a xs ih => simp [lastIndexOfChar, ih]

theorem containsSubstring_drop {pat l : List Char}
    (h : containsSubstring pat l = false) :
    ∀ i, pat.isPrefixOf (l.drop i) = false := by
  induction l with
  | nil =>
    intro i
    rw [List.drop_nil]
    simpa [containsSubstring] using h
  | cons a rest ih =>
    intro i
    rw [containsSubstring, Bool.or_eq_false_iff] at h
    cases i with
    | zero => exact h.1
    | succ j => exact ih h.2 j

/-- `.tar.gz` has no nontrivial border, so an occurrence of it in
`stem ++ ".tar.gz"` cannot start strictly inside `stem` unless it starts
an occurrence inside `stem` itself. -/
theorem tarGz_no_straddle {stem : List Char}
    (h : containsSubstring ".tar.gz".data stem = false) :
    ∀ i, i < stem.length →
      ".tar.gz".data.isPrefixOf ((stem ++ ".tar.gz".data).drop i) = false := by
  intro i hi
  have hdrop : (stem ++ ".tar.gz".data).drop i = stem.drop i ++ ".tar.gz".data := by
    rw [List.drop_append_eq_append_drop, Nat.sub_eq_zero_of_le (le_of_lt hi),
      List.drop_zero]
  rw [hdrop]
  by_contra hpre
  rw [Bool.not_eq_false, List.isPrefixOf_iff_prefix] at hpre
  have hslen : (stem.drop i).length = stem.length - i := List.length_drop i stem
  have hs1 : 1 ≤ (stem.drop i).length := by omega
  have hpatlen : (".tar.gz".data).length = 7 := by decide
  have hpat := List.prefix_iff_eq_take.mp hpre
  rw [hpatlen, List.take_append_eq_append_take] at hpat
  by_cases hbig : 7 ≤ (stem.drop i).length
  · rw [Nat.sub_eq_zero_of_le hbig, List.take_zero, List.append_nil] at hpat
    have hocc : ".tar.gz".data <+: stem.drop i := hpat ▸ List.take_prefix 7 (stem.drop i)
    have htrue : (".tar.gz".data.isPrefixOf (stem.drop i)) = true :=
      List.isPrefixOf_iff_prefix.mpr hocc
    have hfalse := containsSubstring_drop h i
    rw [htrue] at hfalse
    exact Bool.noConfusion hfalse
  · push_neg at hbig
    rw [List.take_of_length_le (le_of_lt hbig)] at hpat
    have hdrop2 : (".tar.gz".data).drop (stem.drop i).length =
        (".tar.gz".data).take (7 - (stem.drop i).length) := by
      conv_lhs => rw [hpat]
      rw [List.drop_left]
    have hforbid : ∀ n, n < 7 → 1 ≤ n →
        (".tar.gz".data).drop n ≠ (".tar.gz".data).take (7 - n) := by decide
    exact hforbid (stem.drop i).length hbig hs1 hdrop2

theorem replaceFirst_append_self {pat : List Char} (hne : pat ≠ []) :
    ∀ xs : List Char,
      (∀ i, i < xs.length → pat.isPrefixOf ((xs ++ pat).drop i) = false) →
      replaceFirst pat [] (xs ++ pat) = xs := by
  intro xs
  induction xs with
  | nil =>
    intro _
    match pat, hne with
    | p :: ps, _ =>
      rw [List.nil_append, replaceFirst,
        if_pos (List.isPrefixOf_iff_prefix.mpr (List.prefix_refl _)),
        List.drop_length, List.append_nil]
  | cons x xs ih =>
    intro h
    have h0 : pat.isPrefixOf (x :: (xs ++ pat)) = false := by
      have := h 0 (by simp)
      simpa using this
    rw [List.cons_append, replaceFirst, if_neg (by simp [h0]), ih]
    intro i hi
    have := h (i + 1) (by simpa using Nat.succ_lt_succ hi)
    simpa using this

theorem map_underscoreToHyphen_id {l : List Char} (h : '_' ∉ l) :
    l.map underscoreToHyphen = l := by
  induction l with
  | nil => rfl
  | cons a rest ih =>
    simp only [List.mem_cons, not_or] at h
    have ha : ¬a = '_' := fun hac => h.1 hac.symm
    simp [underscoreToHyphen, ha, ih h.2]

/-- C2 (amended): for a bare filename `{name}-{version}.tar.gz` in which
`name` contains no `-`, `_` or `/`, `version` contains no `-` or `/`, and
the `{name}-{version}` stem contains no occurrence of `.tar.gz`,
`extractMetadataFromSdist` returns exactly that name and version. -/
theorem c2_sdist_round_trip (name version : String)
    (_h1 : '-' ∉ name.data) (h2 : '_' ∉ name.data) (h3 : '/' ∉ name.data)
    (h4 : '-' ∉ version.data) (h5 : '/' ∉ version.data)
    (h6 : containsSubstring ".tar.gz".data (name.data ++ '-' :: version.data) = false) :
    extractMetadataFromSdist (name ++ "-" ++ version ++ ".tar.gz") =
      { name := some name, version := some version } := by
  have hdata : (name ++ "-" ++ version ++ ".tar.gz").data
      = (name.data ++ '-' :: version.data) ++ ".tar.gz".data := by
    simp [String.data_append]
  have hnosl : '/' ∉ (name.data ++ '-' :: version.data) ++ ".tar.gz".data := by
    simp only [List.mem_append, List.mem_cons, not_or]
    refine ⟨⟨h3, ?_, h5⟩, by decide⟩
    decide
  rw [extractMetadataFromSdist, hdata, splitOnChar_eq_single hnosl]
  have hfile : lastSegD [(name.data ++ '-' :: version.data) ++ ".tar.gz".data]
      = (name.data ++ '-' :: version.data) ++ ".tar.gz".data := rfl
  rw [hfile, replaceFirst_append_self (by decide) _ (tarGz_no_straddle h6),
    lastIndexOfChar_append name.data version.data h4]
  have htake : (name.data ++ '-' :: version.data).take name.data.length = name.data :=
    List.take_left _ _
  have hdrop : (name.data ++ '-' :: version.data).drop (name.data.length + 1)
      = version.data := by
    rw [show name.data ++ '-' :: version.data = (name.data ++ ['-']) ++ version.data by simp,
      show name.data.length + 1 = (name.data ++ ['-']).length by simp]
    exact List.drop_left _ _
  dsimp only
  rw [htake, hdrop, map_underscoreToHyphen_id h2]

/-- Counterexample to C2 as stated: underscores in the name are rewritten
to hyphens, a dash inside the version shifts the split point, and a
`.tar.gz` occurrence inside the name is the one removed. -/
theorem c2_sdist_round_trip_counterexample :
    (extractMetadataFromSdist "my_pkg-1.0.tar.gz").name = some "my-pkg" ∧
    some "my-pkg" ≠ some "my_pkg" ∧
    (extractMetadataFromSdist "a-1-2.tar.gz").version = some "2" ∧
    some "2" ≠ some "1-2" ∧
    (extractMetadataFromSdist "a.tar.gz-1.0.tar.gz").name = some "a" ∧
    some "a" ≠ some "a.tar.gz" := by
  refine ⟨by decide, by decide, by decide, by decide, by decide, by decide⟩

/-- Witness for C2's amended statement at a concrete well-formed
filename. -/
theorem c2_sdist_round_trip_witness :
    ('-' ∉ "mypackage".data ∧ '_' ∉ "mypackage".data ∧ '-' ∉ "1.0.0".data ∧
      containsSubstring ".tar.gz".data ("mypackage".data ++ '-' :: "1.0.0".data) = false) ∧
    extractMetadataFromSdist "mypackage-1.0.0.tar.gz" =
      { name := some "mypackage", version := some "1.0.0" } :=
  ⟨⟨by decide, by decide, by decide, by decide⟩,
   c2_sdist_round_trip "mypackage" "1.0.0" (by decide) (by decide) (by decide)
     (by decide) (by decide) (by decide)⟩

end PypiCli
